import Mathlib

/-!
Verification of the couchbeans CouchDB client (`src/couchbeans/client.py`).

The Python client is shallowly embedded: JSON values are an inductive type,
Python dicts are association lists with Python's insertion-order update
semantics, the HTTP transport is an oracle mapping the index of the transport
call and the request to a transport outcome, and exceptions are an explicit
error type threaded through `Except`.  The executor state records how many
transport calls were made and the full list of requests issued, so that
claims about "exactly n attempts" and "no DELETE was issued" are statable.
-/

namespace Couchbeans

/-- JSON values, as produced by `response.json()` and consumed by the
`json=` keyword of the transport.  Numbers are integers (the client only
ever builds integer fields: `skip`, `limit`, `q`, `n`). -/
inductive Json where
  | null : Json
  | bool : Bool → Json
  | num : Int → Json
  | str : String → Json
  | arr : List Json → Json
  | obj : List (String × Json) → Json

/-- A Python dict with string keys, in insertion order. -/
abbrev Obj := List (String × Json)

/-- Python `d[k]` lookup (first binding wins; dicts have unique keys). -/
def objLookup : Obj → String → Option Json
  | [], _ => none
  | (k', v) :: rest, k => if k' = k then some v else objLookup rest k

/-- Python `k in d`. -/
def hasKey (o : Obj) (k : String) : Bool :=
  (objLookup o k).isSome

/-- Python `d[k] = v`: replace the binding in place if the key is present,
otherwise append the new binding (insertion order). -/
def setKey : Obj → String → Json → Obj
  | [], k, v => [(k, v)]
  | (k', v') :: rest, k, v =>
      if k' = k then (k, v) :: rest else (k', v') :: setKey rest k v

/-- Python `\x7b**a, **b\x7d`: start from `a` and assign every binding of `b`
in order (later keys win, insertion order is preserved). -/
def dictMerge (a b : Obj) : Obj :=
  b.foldl (fun acc kv => setKey acc kv.1 kv.2) a

/-- The JSON value `\x7b"$exists": true\x7d` inserted for sort fields. -/
def existsTrue : Json :=
  Json.obj [("$exists", Json.bool true)]

/-- The HTTP verbs dispatched by `__couch_query`. -/
inductive HTTPMethod where
  | GET : HTTPMethod
  | POST : HTTPMethod
  | PUT : HTTPMethod
  | DELETE : HTTPMethod
deriving DecidableEq

/-- One HTTP request as handed to the session: the full URL
(base address ++ endpoint), the verb, and the optional JSON body
(`json=args`; `None` for GET/DELETE). -/
structure Request where
  url : String
  method : HTTPMethod
  body : Option Json

/-- What one transport call does: either the request completes with a status
code and a parsed JSON body, or the transport raises
`requests.exceptions.ConnectionError` or `requests.exceptions.Timeout`. -/
inductive TransportResult where
  | success : Nat → Json → TransportResult
  | connectionError : TransportResult
  | timeout : TransportResult

/-- A deterministic transport oracle: the outcome of the `n`-th transport
call (counted across the whole client history) on a given request. -/
def Transport := Nat → Request → TransportResult

/-- Errors raised by the client.

Modelled from the spec: `couchbeans/exceptions.py` is not under `src/`, so
the exception classes are taken from the spec's error taxonomy (section 7):
`couchHTTP` is `CouchHTTPError` carrying the parsed error body and the
numeric status code; `alreadyExists` is `ObjectAlreadyExistsException`
carrying a message and the database name, a type distinguished from the
generic rejection; `connExhausted` is the built-in `ConnectionError` raised
on retry exhaustion, carrying its message; `pyError` stands for the
remaining built-in Python errors (`KeyError`, `TypeError`), none of which
is a `CouchHTTPError`. -/
inductive QueryError where
  | couchHTTP : Json → Nat → QueryError
  | alreadyExists : String → String → QueryError
  | connExhausted : String → QueryError
  | pyError : String → QueryError

/-- Python `response[key]`: a `KeyError` if the key is absent, a `TypeError`
if the value is not a mapping at all. -/
def jsonGet (j : Json) (k : String) : Except QueryError Json :=
  match j with
  | Json.obj kvs =>
      match objLookup kvs k with
      | some v => Except.ok v
      | none => Except.error (QueryError.pyError ("KeyError: " ++ k))
  | _ => Except.error (QueryError.pyError "TypeError: not a mapping")

/-- Python `"?rev=" + document[key]`: the value must additionally be a
string for the concatenation to succeed. -/
def jsonGetStr (j : Json) (k : String) : Except QueryError String :=
  match jsonGet j k with
  | Except.ok (Json.str s) => Except.ok s
  | Except.ok _ => Except.error (QueryError.pyError "TypeError: can only concatenate str")
  | Except.error e => Except.error e

/-- Executor state: how many transport calls have been made so far (the
index fed to the oracle) and the requests issued, in order. -/
structure QState where
  calls : Nat
  trace : List Request

/-- Record one transport call on the state. -/
def QState.push (st : QState) (req : Request) : QState :=
  ⟨st.calls + 1, st.trace ++ [req]⟩

/-- The message of the `ConnectionError` raised on retry exhaustion. -/
def gaveUpMessage (tries : Nat) : String :=
  "Gave up connecting to CouchDB after " ++ toString tries ++ " tries"

/-- The retry loop of `CouchClient.__couch_query`: `try_n` starts at 0 and
the loop runs while `try_n < max_retries`; `fuel` is the remaining number
of iterations `max_retries - try_n`.  A completed response with a 2xx
status returns its body; any other completed response raises
`CouchHTTPError(response.json(), response.status_code)` at once; a
connection error or timeout increments `try_n` and retries; when the loop
exhausts, `ConnectionError` is raised with the attempt count. -/
def couchQueryGo (t : Transport) (req : Request) :
    Nat → Nat → QState → Except QueryError Json × QState
  | tryN, 0, st => (Except.error (QueryError.connExhausted (gaveUpMessage tryN)), st)
  | tryN, fuel + 1, st =>
      match t st.calls req with
      | TransportResult.success code body =>
          if 200 ≤ code ∧ code < 300 then
            (Except.ok body, st.push req)
          else
            (Except.error (QueryError.couchHTTP body code), st.push req)
      | TransportResult.connectionError => couchQueryGo t req (tryN + 1) fuel (st.push req)
      | TransportResult.timeout => couchQueryGo t req (tryN + 1) fuel (st.push req)

/-- `CouchClient.__couch_query(endpoint, method, args)`: build the URL from
the stored base address and the endpoint and run the retry loop with
`try_n = 0` and the configured `max_retries`. -/
def couch_query (t : Transport) (maxRetries : Nat) (base endpoint : String)
    (method : HTTPMethod) (args : Option Json) (st : QState) :
    Except QueryError Json × QState :=
  couchQueryGo t ⟨base ++ endpoint, method, args⟩ 0 maxRetries st

/-- `CouchClient.__init__`: a trailing separator is removed from the base
URI (`couch_base_uri[:-1]` drops the last character when
`couch_base_uri.endswith("/")`). -/
def initBaseUri (uri : String) : String :=
  if uri.data.getLast? = some '/' then String.mk uri.data.dropLast else uri

/-- `CouchClient.delete_db(database)`. -/
def delete_db (t : Transport) (mr : Nat) (base db : String) (st : QState) :
    Except QueryError Json × QState :=
  couch_query t mr base ("/" ++ db) HTTPMethod.DELETE none st

/-- `CouchClient.get_document(database, doc_id)`. -/
def get_document (t : Transport) (mr : Nat) (base db docId : String) (st : QState) :
    Except QueryError Json × QState :=
  couch_query t mr base ("/" ++ db ++ "/" ++ docId) HTTPMethod.GET none st

/-- The options dict built by `create_db`: `partitioned` always,
`q`/`n` only when shards/replicas are given. -/
def createDbOptions (shards replicas : Option Int) (partitioned : Bool) : Obj :=
  [("partitioned", Json.bool partitioned)]
    ++ (match shards with | some q => [("q", Json.num q)] | none => [])
    ++ (match replicas with | some n => [("n", Json.num n)] | none => [])

/-- `CouchClient.create_db(database, shards, replicas, partitioned)`:
PUT the options to `/\x7bdb\x7d`, return `True` on success; on a
`CouchHTTPError` with code 412 raise
`ObjectAlreadyExistsException("Database already exists", database)`,
re-raise any other error. -/
def create_db (t : Transport) (mr : Nat) (base db : String)
    (shards replicas : Option Int) (partitioned : Bool) (st : QState) :
    Except QueryError Json × QState :=
  let options : Obj := createDbOptions shards replicas partitioned
  match couch_query t mr base ("/" ++ db) HTTPMethod.PUT (some (Json.obj options)) st with
  | (Except.ok _, st1) => (Except.ok (Json.bool true), st1)
  | (Except.error (QueryError.couchHTTP body code), st1) =>
      if code = 412 then
        (Except.error (QueryError.alreadyExists "Database already exists" db), st1)
      else
        (Except.error (QueryError.couchHTTP body code), st1)
  | (Except.error e, st1) => (Except.error e, st1)

/-- `CouchClient.delete_document(database, doc_id, strict)`: inside one
`try`, GET the document, read its `_rev`, and DELETE
`/\x7bdb\x7d/\x7bid\x7d?rev=\x7brev\x7d`; a `CouchHTTPError` raised anywhere in that block
is re-raised when `strict` or its code is not 404, and otherwise the call
returns `False` (nothing had to be deleted). -/
def delete_document (t : Transport) (mr : Nat) (base db docId : String)
    (strict : Bool) (st : QState) : Except QueryError Json × QState :=
  let attempt : Except QueryError Json × QState :=
    match couch_query t mr base ("/" ++ db ++ "/" ++ docId) HTTPMethod.GET none st with
    | (Except.ok document, st1) =>
        match jsonGetStr document "_rev" with
        | Except.ok rev =>
            couch_query t mr base ("/" ++ db ++ "/" ++ docId ++ "?rev=" ++ rev)
              HTTPMethod.DELETE none st1
        | Except.error e => (Except.error e, st1)
    | (Except.error e, st1) => (Except.error e, st1)
  match attempt with
  | (Except.error (QueryError.couchHTTP body code), st1) =>
      if strict || !(code = 404) then
        (Except.error (QueryError.couchHTTP body code), st1)
      else
        (Except.ok (Json.bool false), st1)
  | r => r

/-- `CouchClient.put_document(database, doc_id, document, overwrite, strict)`:
when `overwrite and not strict`, GET the document and copy its `_rev` into
the caller's mapping (`document["_rev"] = in_document["_rev"]` mutates the
argument in place, rendered here by returning the mapping's new value); a
`CouchHTTPError` 404 from the fetch is swallowed, any other code re-raised
(a `KeyError`, not being a `CouchHTTPError`, propagates).  Then PUT the
(possibly revision-stamped) document.  The second component of the result
is the final value of the caller-supplied mapping. -/
def put_document (t : Transport) (mr : Nat) (base db docId : String)
    (document : Obj) (overwrite strict : Bool) (st : QState) :
    Except QueryError Json × Obj × QState :=
  if overwrite && !strict then
    match couch_query t mr base ("/" ++ db ++ "/" ++ docId) HTTPMethod.GET none st with
    | (Except.ok inDocument, st1) =>
        match jsonGet inDocument "_rev" with
        | Except.ok rev =>
            let document1 := setKey document "_rev" rev
            match couch_query t mr base ("/" ++ db ++ "/" ++ docId) HTTPMethod.PUT
                (some (Json.obj document1)) st1 with
            | (r, st2) => (r, document1, st2)
        | Except.error e => (Except.error e, document, st1)
    | (Except.error (QueryError.couchHTTP body code), st1) =>
        if !(code = 404) then
          (Except.error (QueryError.couchHTTP body code), document, st1)
        else
          match couch_query t mr base ("/" ++ db ++ "/" ++ docId) HTTPMethod.PUT
              (some (Json.obj document)) st1 with
          | (r, st2) => (r, document, st2)
    | (Except.error e, st1) => (Except.error e, document, st1)
  else
    match couch_query t mr base ("/" ++ db ++ "/" ++ docId) HTTPMethod.PUT
        (some (Json.obj document)) st with
    | (r, st1) => (r, document, st1)

/-- `CouchClient.patch_document(database, doc_id, document_diff, strict)`:
`document` starts as `\x7b\x7d`; the GET result replaces it, a `CouchHTTPError`
is re-raised when `strict` or its code is not 404 (a swallowed 404 keeps
the empty dict); then `\x7b**document, **document_diff\x7d` is PUT. -/
def patch_document (t : Transport) (mr : Nat) (base db docId : String)
    (document_diff : Obj) (strict : Bool) (st : QState) :
    Except QueryError Json × QState :=
  let fetched : Except QueryError Json × QState :=
    match couch_query t mr base ("/" ++ db ++ "/" ++ docId) HTTPMethod.GET none st with
    | (Except.error (QueryError.couchHTTP body code), st1) =>
        if strict || !(code = 404) then
          (Except.error (QueryError.couchHTTP body code), st1)
        else
          (Except.ok (Json.obj []), st1)
    | r => r
  match fetched with
  | (Except.ok (Json.obj document), st1) =>
      couch_query t mr base ("/" ++ db ++ "/" ++ docId) HTTPMethod.PUT
        (some (Json.obj (dictMerge document document_diff))) st1
  | (Except.ok _, st1) =>
      (Except.error (QueryError.pyError "TypeError: not a mapping"), st1)
  | (Except.error e, st1) => (Except.error e, st1)

/-- The keys named by a sort specification, in iteration order: `sort` is a
list of dicts and the two nested `for` loops of `find`/`find_all` walk the
keys of each dict in order. -/
def sortKeys (sort : List Obj) : List String :=
  sort.flatMap (fun sortby => sortby.map Prod.fst)

/-- The nested loops of `find`/`find_all`: for each key named by the sort
that is not already in the selector, assign
`selector[key] = \x7b"$exists": True\x7d` (an in-place update of the caller's
dict; this function computes the dict's new value). -/
def addSortKeys (sel : Obj) : List String → Obj
  | [] => sel
  | k :: ks =>
      if hasKey sel k then addSortKeys sel ks
      else addSortKeys (setKey sel k existsTrue) ks

/-- Selector augmentation for a sort specification. -/
def augmentSelector (sel : Obj) (sort : List Obj) : Obj :=
  addSortKeys sel (sortKeys sort)

/-- The Mango query built by `find`: the dict literal holds `selector`,
`skip`, `limit` in that order, then `sort` and `fields` are appended when
given. -/
def findMango (selector : Obj) (page pageSize : Int) (sort : Option (List Obj))
    (fields : Option Json) : Json :=
  Json.obj
    (([("selector", Json.obj selector),
       ("skip", Json.num (page * pageSize)),
       ("limit", Json.num pageSize)]
      ++ (match sort with
          | some s => [("sort", Json.arr (s.map Json.obj))]
          | none => []))
      ++ (match fields with | some f => [("fields", f)] | none => []))

/-- `CouchClient.find(database, selector, fields, sort, page, page_size)`:
augment the selector in place when a sort is given, build the Mango query
with `skip = page * page_size` and `limit = page_size`, POST it to
`/\x7bdb\x7d/_find` and return the response's `docs` member.  The second
component of the result is the final value of the caller-supplied selector
mapping (mutated before the request is sent, so it is the new value even
when the query fails). -/
def find (t : Transport) (mr : Nat) (base db : String) (selector : Obj)
    (fields : Option Json) (sort : Option (List Obj)) (page pageSize : Int)
    (st : QState) : Except QueryError Json × Obj × QState :=
  let selector1 :=
    match sort with
    | some s => augmentSelector selector s
    | none => selector
  let mango := findMango selector1 page pageSize sort fields
  match couch_query t mr base ("/" ++ db ++ "/_find") HTTPMethod.POST (some mango) st with
  | (Except.ok response, st1) => (jsonGet response "docs", selector1, st1)
  | (Except.error e, st1) => (Except.error e, selector1, st1)

/-- The Mango query built by `find_all`: no `skip`, and the limit is the
`total_rows` value of the `_all_docs` response, used as-is. -/
def findAllMango (selector : Obj) (limit : Json) (sort : Option (List Obj))
    (fields : Option Json) : Json :=
  Json.obj
    (([("selector", Json.obj selector),
       ("limit", limit)]
      ++ (match sort with
          | some s => [("sort", Json.arr (s.map Json.obj))]
          | none => []))
      ++ (match fields with | some f => [("fields", f)] | none => []))

/-- `CouchClient.find_all(database, selector, fields, sort)`: GET
`/\x7bdb\x7d/_all_docs` and take its `total_rows` as the limit, then augment the
selector in place as `find` does and POST the Mango query (without `skip`)
to `/\x7bdb\x7d/_find`, returning the response's `docs` member.  The second
component is the final value of the caller-supplied selector mapping
(unchanged when the first round trip fails). -/
def find_all (t : Transport) (mr : Nat) (base db : String) (selector : Obj)
    (fields : Option Json) (sort : Option (List Obj)) (st : QState) :
    Except QueryError Json × Obj × QState :=
  match couch_query t mr base ("/" ++ db ++ "/_all_docs") HTTPMethod.GET none st with
  | (Except.ok allDocs, st1) =>
      match jsonGet allDocs "total_rows" with
      | Except.ok limit =>
          let selector1 :=
            match sort with
            | some s => augmentSelector selector s
            | none => selector
          let mango := findAllMango selector1 limit sort fields
          match couch_query t mr base ("/" ++ db ++ "/_find") HTTPMethod.POST
              (some mango) st1 with
          | (Except.ok response, st2) => (jsonGet response "docs", selector1, st2)
          | (Except.error e, st2) => (Except.error e, selector1, st2)
      | Except.error e => (Except.error e, selector, st1)
  | (Except.error e, st1) => (Except.error e, selector, st1)

/-- The default-argument objects of `find` and `find_all`.  In Python,
`def find(self, database, selector = \x7b\x7d, ...)` evaluates `\x7b\x7d` once, at
function definition time, so every call that omits `selector` shares that
single mutable dict; likewise, separately, for `find_all`.  This structure
carries the current contents of those two shared dicts. -/
structure ClientDefaults where
  findSel : Obj
  findAllSel : Obj

/-- `find` as called through its argument defaults: with `selectorArg =
none` the shared default dict is used, and its in-place augmentation
persists for later defaulted calls (the updated contents are stored back
into `ClientDefaults`).  The `Option Obj` component is the final value of
the caller's own mapping when one was passed. -/
def findWithDefault (t : Transport) (mr : Nat) (base db : String)
    (selectorArg : Option Obj) (fields : Option Json) (sort : Option (List Obj))
    (page pageSize : Int) (st : QState) (d : ClientDefaults) :
    Except QueryError Json × Option Obj × QState × ClientDefaults :=
  match selectorArg with
  | some sel =>
      match find t mr base db sel fields sort page pageSize st with
      | (r, sel1, st1) => (r, some sel1, st1, d)
  | none =>
      match find t mr base db d.findSel fields sort page pageSize st with
      | (r, sel1, st1) => (r, none, st1, { d with findSel := sel1 })

/-- `find_all` as called through its argument defaults (the shared default
dict of `find_all`, distinct from `find`'s). -/
def findAllWithDefault (t : Transport) (mr : Nat) (base db : String)
    (selectorArg : Option Obj) (fields : Option Json) (sort : Option (List Obj))
    (st : QState) (d : ClientDefaults) :
    Except QueryError Json × Option Obj × QState × ClientDefaults :=
  match selectorArg with
  | some sel =>
      match find_all t mr base db sel fields sort st with
      | (r, sel1, st1) => (r, some sel1, st1, d)
  | none =>
      match find_all t mr base db d.findAllSel fields sort st with
      | (r, sel1, st1) => (r, none, st1, { d with findAllSel := sel1 })

theorem couchQueryGo_transient (t : Transport) (req : Request)
    (h : ∀ n, t n req = TransportResult.connectionError ∨ t n req = TransportResult.timeout) :
    ∀ fuel tryN st, couchQueryGo t req tryN fuel st =
      (Except.error (QueryError.connExhausted (gaveUpMessage (tryN + fuel))),
        ⟨st.calls + fuel, st.trace ++ List.replicate fuel req⟩) := by
  intro fuel
  induction fuel with
  | zero => intro tryN st; simp [couchQueryGo]
  | succ n ih =>
      intro tryN st
      have hstep : couchQueryGo t req tryN (n + 1) st =
          couchQueryGo t req (tryN + 1) n (st.push req) := by
        rcases h st.calls with hc | hc <;> simp [couchQueryGo, hc]
      rw [hstep, ih (tryN + 1) (st.push req)]
      have h1 : tryN + 1 + n = tryN + (n + 1) := by omega
      have h2 : st.calls + 1 + n = st.calls + (n + 1) := by omega
      simp [QState.push, h1, h2, List.replicate_succ, List.append_assoc]

/-- A mock transport answering `r0` on its first call and `r1` on every
later one. -/
def twoStep (r0 r1 : TransportResult) : Transport :=
  fun n _ => if n = 0 then r0 else r1

/-- A stored document used by concrete runs. -/
def exStoredDoc : Obj :=
  [("_id", Json.str "x"), ("_rev", Json.str "1-abc"),
   ("a", Json.num 1), ("b", Json.num 2)]

/-- A generic success body for write acknowledgements. -/
def exOkBody : Json :=
  Json.obj [("ok", Json.bool true)]

theorem couch_query_ok (t : Transport) (mr : Nat) (base ep : String)
    (m : HTTPMethod) (a : Option Json) (st : QState) (code : Nat) (body : Json)
    (hmr : 0 < mr)
    (hres : t st.calls ⟨base ++ ep, m, a⟩ = TransportResult.success code body)
    (h1 : 200 ≤ code) (h2 : code < 300) :
    couch_query t mr base ep m a st = (Except.ok body, st.push ⟨base ++ ep, m, a⟩) := by
  cases mr with
  | zero => omega
  | succ n =>
      simp only [couch_query, couchQueryGo, hres]
      rw [if_pos ⟨h1, h2⟩]

theorem couch_query_reject (t : Transport) (mr : Nat) (base ep : String)
    (m : HTTPMethod) (a : Option Json) (st : QState) (code : Nat) (body : Json)
    (hmr : 0 < mr)
    (hres : t st.calls ⟨base ++ ep, m, a⟩ = TransportResult.success code body)
    (hcode : ¬(200 ≤ code ∧ code < 300)) :
    couch_query t mr base ep m a st =
      (Except.error (QueryError.couchHTTP body code), st.push ⟨base ++ ep, m, a⟩) := by
  cases mr with
  | zero => omega
  | succ n =>
      simp only [couch_query, couchQueryGo, hres]
      rw [if_neg hcode]

theorem objLookup_setKey_self (o : Obj) (k : String) (v : Json) :
    objLookup (setKey o k v) k = some v := by
  induction o with
  | nil => simp [setKey, objLookup]
  | cons kv rest ih =>
      by_cases h : kv.1 = k
      · simp [setKey, h, objLookup]
      · simp [setKey, h, objLookup, ih]

theorem objLookup_setKey_other (o : Obj) (k k' : String) (v : Json) (h : ¬k = k') :
    objLookup (setKey o k v) k' = objLookup o k' := by
  induction o with
  | nil => simp [setKey, objLookup, h]
  | cons kv rest ih =>
      by_cases hk : kv.1 = k
      · simp [setKey, hk, objLookup, h]
      · simp [setKey, hk, objLookup, ih]

theorem addSortKeys_cons (sel : Obj) (k1 : String) (ks : List String) :
    addSortKeys sel (k1 :: ks) =
      if hasKey sel k1 then addSortKeys sel ks
      else addSortKeys (setKey sel k1 existsTrue) ks := rfl

theorem addSortKeys_of_isSome (ks : List String) :
    ∀ sel k, (objLookup sel k).isSome →
      objLookup (addSortKeys sel ks) k = objLookup sel k := by
  induction ks with
  | nil => intro sel k _; simp [addSortKeys]
  | cons k1 ks ih =>
      intro sel k hk
      by_cases h1 : hasKey sel k1
      · rw [addSortKeys_cons, if_pos h1]
        exact ih sel k hk
      · rw [addSortKeys_cons, if_neg h1]
        have hne : ¬k1 = k := by
          intro he
          rw [he] at h1
          exact h1 (by simpa [hasKey] using hk)
        rw [ih (setKey sel k1 existsTrue) k
            (by rw [objLookup_setKey_other sel k1 k existsTrue hne]; exact hk)]
        exact objLookup_setKey_other sel k1 k existsTrue hne

theorem addSortKeys_adds (ks : List String) :
    ∀ sel k, objLookup sel k = none → k ∈ ks →
      objLookup (addSortKeys sel ks) k = some existsTrue := by
  induction ks with
  | nil => intro sel k _ hmem; cases hmem
  | cons k1 ks ih =>
      intro sel k hk hmem
      by_cases he : k1 = k
      · subst he
        have h1 : ¬hasKey sel k1 := by simp [hasKey, hk]
        rw [addSortKeys_cons, if_neg h1]
        rw [addSortKeys_of_isSome ks (setKey sel k1 existsTrue) k1
            (by rw [objLookup_setKey_self]; simp)]
        exact objLookup_setKey_self sel k1 existsTrue
      · have hmem' : k ∈ ks := by
          rcases List.mem_cons.mp hmem with h | h
          · exact absurd h.symm he
          · exact h
        by_cases h1 : hasKey sel k1
        · rw [addSortKeys_cons, if_pos h1]
          exact ih sel k hk hmem'
        · rw [addSortKeys_cons, if_neg h1]
          exact ih (setKey sel k1 existsTrue) k
            (by rw [objLookup_setKey_other sel k1 k existsTrue he]; exact hk) hmem'

theorem augmentSelector_adds (sel : Obj) (s : List Obj) (k : String)
    (hk : objLookup sel k = none) (hmem : k ∈ sortKeys s) :
    objLookup (augmentSelector sel s) k = some existsTrue :=
  addSortKeys_adds (sortKeys s) sel k hk hmem

theorem augmentSelector_preserves (sel : Obj) (s : List Obj) (k : String)
    (hk : (objLookup sel k).isSome) :
    objLookup (augmentSelector sel s) k = objLookup sel k :=
  addSortKeys_of_isSome (sortKeys s) sel k hk

/-- C1: if the transport raises a connection-refused or timeout signal on
every attempt of a request, the executor makes exactly `max_retries`
transport calls (the trace grows by `max_retries` copies of the request, no
more and no fewer) and the call fails with the `ConnectionError` whose
message states the attempt count. -/
theorem couch_query_retries_exhausted (t : Transport) (maxRetries : Nat)
    (base endpoint : String) (method : HTTPMethod) (args : Option Json) (st : QState)
    (h : ∀ n, t n ⟨base ++ endpoint, method, args⟩ = TransportResult.connectionError ∨
        t n ⟨base ++ endpoint, method, args⟩ = TransportResult.timeout) :
    couch_query t maxRetries base endpoint method args st =
      (Except.error (QueryError.connExhausted
          ("Gave up connecting to CouchDB after " ++ toString maxRetries ++ " tries")),
        ⟨st.calls + maxRetries,
          st.trace ++ List.replicate maxRetries ⟨base ++ endpoint, method, args⟩⟩) := by
  have := couchQueryGo_transient t ⟨base ++ endpoint, method, args⟩ h maxRetries 0 st
  simpa [couch_query, gaveUpMessage] using this

theorem couch_query_retries_exhausted_witness :
    couch_query (fun _ _ => TransportResult.connectionError) 3
        "http://localhost:5984" "/testdb/_find" HTTPMethod.POST none ⟨0, []⟩ =
      (Except.error (QueryError.connExhausted
          ("Gave up connecting to CouchDB after " ++ toString 3 ++ " tries")),
        ⟨0 + 3, [] ++ List.replicate 3
          ⟨"http://localhost:5984" ++ "/testdb/_find", HTTPMethod.POST, none⟩⟩) :=
  couch_query_retries_exhausted (fun _ _ => TransportResult.connectionError) 3
    "http://localhost:5984" "/testdb/_find" HTTPMethod.POST none ⟨0, []⟩
    (fun _ => Or.inl rfl)

/-- C2: at any point of the retry loop (any attempt number `tryN`, any
remaining fuel, any prior history), a transport response that completes
with a status outside [200, 300) terminates the loop at once: exactly one
more transport call is made, and the raised `CouchHTTPError` carries
exactly that response's status code and parsed JSON body. -/
theorem couch_query_reject_stops (t : Transport) (req : Request)
    (tryN fuel : Nat) (st : QState) (code : Nat) (body : Json)
    (hfuel : 0 < fuel)
    (hres : t st.calls req = TransportResult.success code body)
    (hcode : ¬(200 ≤ code ∧ code < 300)) :
    couchQueryGo t req tryN fuel st =
      (Except.error (QueryError.couchHTTP body code), st.push req) := by
  cases fuel with
  | zero => omega
  | succ n => simp [couchQueryGo, hres, hcode]

theorem couch_query_reject_stops_witness :
    couchQueryGo (fun _ _ => TransportResult.success 404 (Json.obj [("error", Json.str "not_found")]))
        ⟨"http://localhost:5984/db/x", HTTPMethod.GET, none⟩ 1 2 ⟨5, []⟩ =
      (Except.error (QueryError.couchHTTP (Json.obj [("error", Json.str "not_found")]) 404),
        QState.push ⟨5, []⟩ ⟨"http://localhost:5984/db/x", HTTPMethod.GET, none⟩) :=
  couch_query_reject_stops
    (fun _ _ => TransportResult.success 404 (Json.obj [("error", Json.str "not_found")]))
    ⟨"http://localhost:5984/db/x", HTTPMethod.GET, none⟩ 1 2 ⟨5, []⟩ 404
    (Json.obj [("error", Json.str "not_found")])
    (by omega) rfl (by omega)

/-- C6: `create_db` returns `True` when the PUT of the options to `/db`
succeeds with a 2xx status; a rejection with status 412 raises the
distinguished already-exists error instead of the generic remote
rejection; a rejection with any other status propagates unchanged.  In
every case exactly one PUT request is issued. -/
theorem create_db_policy (t : Transport) (mr : Nat) (base db : String)
    (shards replicas : Option Int) (partitioned : Bool) (st : QState)
    (hmr : 0 < mr) :
    (∀ code body, t st.calls ⟨base ++ ("/" ++ db), HTTPMethod.PUT,
          some (Json.obj (createDbOptions shards replicas partitioned))⟩ =
          TransportResult.success code body → 200 ≤ code → code < 300 →
        create_db t mr base db shards replicas partitioned st =
          (Except.ok (Json.bool true), st.push ⟨base ++ ("/" ++ db), HTTPMethod.PUT,
            some (Json.obj (createDbOptions shards replicas partitioned))⟩))
    ∧
    (∀ body, t st.calls ⟨base ++ ("/" ++ db), HTTPMethod.PUT,
          some (Json.obj (createDbOptions shards replicas partitioned))⟩ =
          TransportResult.success 412 body →
        create_db t mr base db shards replicas partitioned st =
          (Except.error (QueryError.alreadyExists "Database already exists" db),
            st.push ⟨base ++ ("/" ++ db), HTTPMethod.PUT,
              some (Json.obj (createDbOptions shards replicas partitioned))⟩))
    ∧
    (∀ code body, t st.calls ⟨base ++ ("/" ++ db), HTTPMethod.PUT,
          some (Json.obj (createDbOptions shards replicas partitioned))⟩ =
          TransportResult.success code body → ¬(200 ≤ code ∧ code < 300) → ¬code = 412 →
        create_db t mr base db shards replicas partitioned st =
          (Except.error (QueryError.couchHTTP body code),
            st.push ⟨base ++ ("/" ++ db), HTTPMethod.PUT,
              some (Json.obj (createDbOptions shards replicas partitioned))⟩)) := by
  refine ⟨?_, ?_, ?_⟩
  · intro code body hres h1 h2
    simp only [create_db]
    rw [couch_query_ok t mr base ("/" ++ db) HTTPMethod.PUT
        (some (Json.obj (createDbOptions shards replicas partitioned))) st code body
        hmr hres h1 h2]
  · intro body hres
    simp only [create_db]
    rw [couch_query_reject t mr base ("/" ++ db) HTTPMethod.PUT
        (some (Json.obj (createDbOptions shards replicas partitioned))) st 412 body
        hmr hres (by omega)]
    simp
  · intro code body hres hcode h412
    simp only [create_db]
    rw [couch_query_reject t mr base ("/" ++ db) HTTPMethod.PUT
        (some (Json.obj (createDbOptions shards replicas partitioned))) st code body
        hmr hres hcode]
    simp [h412]

theorem create_db_policy_witness :
    create_db
        (fun _ _ => TransportResult.success 412 (Json.obj [("error", Json.str "file_exists")]))
        3 "http://localhost:5984" "mydb" none none false ⟨0, []⟩ =
      (Except.error (QueryError.alreadyExists "Database already exists" "mydb"),
        QState.push ⟨0, []⟩ ⟨"http://localhost:5984" ++ ("/" ++ "mydb"), HTTPMethod.PUT,
          some (Json.obj (createDbOptions none none false))⟩) :=
  (create_db_policy
      (fun _ _ => TransportResult.success 412 (Json.obj [("error", Json.str "file_exists")]))
      3 "http://localhost:5984" "mydb" none none false ⟨0, []⟩ (by omega)).2.1
    (Json.obj [("error", Json.str "file_exists")]) rfl

/-- C5: `delete_document` whose revision-fetch GET is rejected with 404
returns `False` and issues no DELETE request when `strict` is false (the
trace grows by the GET request only); with `strict` true the 404
propagates; a rejection with any code other than 404 propagates in both
modes, again with no DELETE issued. -/
theorem delete_document_404_policy (t : Transport) (mr : Nat)
    (base db docId : String) (st : QState) (hmr : 0 < mr) :
    (∀ body, t st.calls ⟨base ++ ("/" ++ db ++ "/" ++ docId), HTTPMethod.GET, none⟩ =
          TransportResult.success 404 body →
        delete_document t mr base db docId false st =
          (Except.ok (Json.bool false),
            st.push ⟨base ++ ("/" ++ db ++ "/" ++ docId), HTTPMethod.GET, none⟩))
    ∧
    (∀ body, t st.calls ⟨base ++ ("/" ++ db ++ "/" ++ docId), HTTPMethod.GET, none⟩ =
          TransportResult.success 404 body →
        delete_document t mr base db docId true st =
          (Except.error (QueryError.couchHTTP body 404),
            st.push ⟨base ++ ("/" ++ db ++ "/" ++ docId), HTTPMethod.GET, none⟩))
    ∧
    (∀ strict code body,
        t st.calls ⟨base ++ ("/" ++ db ++ "/" ++ docId), HTTPMethod.GET, none⟩ =
          TransportResult.success code body → ¬(200 ≤ code ∧ code < 300) → ¬code = 404 →
        delete_document t mr base db docId strict st =
          (Except.error (QueryError.couchHTTP body code),
            st.push ⟨base ++ ("/" ++ db ++ "/" ++ docId), HTTPMethod.GET, none⟩)) := by
  refine ⟨?_, ?_, ?_⟩
  · intro body hres
    simp only [delete_document]
    rw [couch_query_reject t mr base ("/" ++ db ++ "/" ++ docId) HTTPMethod.GET
        none st 404 body hmr hres (by omega)]
    simp
  · intro body hres
    simp only [delete_document]
    rw [couch_query_reject t mr base ("/" ++ db ++ "/" ++ docId) HTTPMethod.GET
        none st 404 body hmr hres (by omega)]
    simp
  · intro strict code body hres hcode h404
    simp only [delete_document]
    rw [couch_query_reject t mr base ("/" ++ db ++ "/" ++ docId) HTTPMethod.GET
        none st code body hmr hres hcode]
    simp [h404]

theorem delete_document_404_policy_witness :
    delete_document
        (fun _ _ => TransportResult.success 404 (Json.obj [("error", Json.str "not_found")]))
        3 "http://localhost:5984" "mydb" "ghost" false ⟨0, []⟩ =
      (Except.ok (Json.bool false),
        QState.push ⟨0, []⟩
          ⟨"http://localhost:5984" ++ ("/" ++ "mydb" ++ "/" ++ "ghost"),
            HTTPMethod.GET, none⟩) :=
  (delete_document_404_policy
      (fun _ _ => TransportResult.success 404 (Json.obj [("error", Json.str "not_found")]))
      3 "http://localhost:5984" "mydb" "ghost" ⟨0, []⟩ (by omega)).1
    (Json.obj [("error", Json.str "not_found")]) rfl

/-- C3: `put_document` with `overwrite = true` and `strict = false` first
issues the revision-lookup GET; when it succeeds the fetched `_rev` is
copied into the outgoing document before the PUT; a 404 on the fetch is
swallowed and the PUT proceeds without touching the document; any other
rejection propagates with no PUT issued; and when `strict` is true or
`overwrite` is false no GET occurs at all, only the single PUT. -/
theorem put_document_rev_policy (t : Transport) (mr : Nat)
    (base db docId : String) (document : Obj) (st : QState) (hmr : 0 < mr) :
    (∀ overwrite strict : Bool, strict = true ∨ overwrite = false →
        put_document t mr base db docId document overwrite strict st =
          ((couch_query t mr base ("/" ++ db ++ "/" ++ docId) HTTPMethod.PUT
              (some (Json.obj document)) st).1, document,
            (couch_query t mr base ("/" ++ db ++ "/" ++ docId) HTTPMethod.PUT
              (some (Json.obj document)) st).2))
    ∧
    (∀ code inDoc rev,
        t st.calls ⟨base ++ ("/" ++ db ++ "/" ++ docId), HTTPMethod.GET, none⟩ =
          TransportResult.success code (Json.obj inDoc) → 200 ≤ code → code < 300 →
        objLookup inDoc "_rev" = some rev →
        put_document t mr base db docId document true false st =
          ((couch_query t mr base ("/" ++ db ++ "/" ++ docId) HTTPMethod.PUT
              (some (Json.obj (setKey document "_rev" rev)))
              (st.push ⟨base ++ ("/" ++ db ++ "/" ++ docId), HTTPMethod.GET, none⟩)).1,
            setKey document "_rev" rev,
            (couch_query t mr base ("/" ++ db ++ "/" ++ docId) HTTPMethod.PUT
              (some (Json.obj (setKey document "_rev" rev)))
              (st.push ⟨base ++ ("/" ++ db ++ "/" ++ docId), HTTPMethod.GET, none⟩)).2))
    ∧
    (∀ body, t st.calls ⟨base ++ ("/" ++ db ++ "/" ++ docId), HTTPMethod.GET, none⟩ =
          TransportResult.success 404 body →
        put_document t mr base db docId document true false st =
          ((couch_query t mr base ("/" ++ db ++ "/" ++ docId) HTTPMethod.PUT
              (some (Json.obj document))
              (st.push ⟨base ++ ("/" ++ db ++ "/" ++ docId), HTTPMethod.GET, none⟩)).1,
            document,
            (couch_query t mr base ("/" ++ db ++ "/" ++ docId) HTTPMethod.PUT
              (some (Json.obj document))
              (st.push ⟨base ++ ("/" ++ db ++ "/" ++ docId), HTTPMethod.GET, none⟩)).2))
    ∧
    (∀ code body,
        t st.calls ⟨base ++ ("/" ++ db ++ "/" ++ docId), HTTPMethod.GET, none⟩ =
          TransportResult.success code body → ¬(200 ≤ code ∧ code < 300) → ¬code = 404 →
        put_document t mr base db docId document true false st =
          (Except.error (QueryError.couchHTTP body code), document,
            st.push ⟨base ++ ("/" ++ db ++ "/" ++ docId), HTTPMethod.GET, none⟩)) := by
  refine ⟨?_, ?_, ?_, ?_⟩
  · rintro overwrite strict (h | h)
    · subst h
      rcases hcq : couch_query t mr base ("/" ++ db ++ "/" ++ docId) HTTPMethod.PUT
          (some (Json.obj document)) st with ⟨r, st1⟩
      simp [put_document, hcq]
    · subst h
      rcases hcq : couch_query t mr base ("/" ++ db ++ "/" ++ docId) HTTPMethod.PUT
          (some (Json.obj document)) st with ⟨r, st1⟩
      simp [put_document, hcq]
  · intro code inDoc rev hres h1 h2 hrev
    simp only [put_document, Bool.and_self, Bool.not_false, if_true]
    rw [couch_query_ok t mr base ("/" ++ db ++ "/" ++ docId) HTTPMethod.GET none st
        code (Json.obj inDoc) hmr hres h1 h2]
    rcases hcq : couch_query t mr base ("/" ++ db ++ "/" ++ docId) HTTPMethod.PUT
        (some (Json.obj (setKey document "_rev" rev)))
        (st.push ⟨base ++ ("/" ++ db ++ "/" ++ docId), HTTPMethod.GET, none⟩)
      with ⟨r, st2⟩
    simp [jsonGet, hrev, hcq]
  · intro body hres
    simp only [put_document, Bool.and_self, Bool.not_false, if_true]
    rw [couch_query_reject t mr base ("/" ++ db ++ "/" ++ docId) HTTPMethod.GET none st
        404 body hmr hres (by omega)]
    rcases hcq : couch_query t mr base ("/" ++ db ++ "/" ++ docId) HTTPMethod.PUT
        (some (Json.obj document))
        (st.push ⟨base ++ ("/" ++ db ++ "/" ++ docId), HTTPMethod.GET, none⟩)
      with ⟨r, st2⟩
    simp [hcq]
  · intro code body hres hcode h404
    simp only [put_document, Bool.and_self, Bool.not_false, if_true]
    rw [couch_query_reject t mr base ("/" ++ db ++ "/" ++ docId) HTTPMethod.GET none st
        code body hmr hres hcode]
    simp [h404]

theorem put_document_rev_policy_witness :
    put_document
        (twoStep (TransportResult.success 200 (Json.obj exStoredDoc))
          (TransportResult.success 201 exOkBody))
        3 "http://localhost:5984" "db" "x" [("a", Json.num 2)] true false ⟨0, []⟩ =
      ((couch_query
          (twoStep (TransportResult.success 200 (Json.obj exStoredDoc))
            (TransportResult.success 201 exOkBody))
          3 "http://localhost:5984" ("/" ++ "db" ++ "/" ++ "x") HTTPMethod.PUT
          (some (Json.obj (setKey [("a", Json.num 2)] "_rev" (Json.str "1-abc"))))
          (QState.push ⟨0, []⟩
            ⟨"http://localhost:5984" ++ ("/" ++ "db" ++ "/" ++ "x"),
              HTTPMethod.GET, none⟩)).1,
        setKey [("a", Json.num 2)] "_rev" (Json.str "1-abc"),
        (couch_query
          (twoStep (TransportResult.success 200 (Json.obj exStoredDoc))
            (TransportResult.success 201 exOkBody))
          3 "http://localhost:5984" ("/" ++ "db" ++ "/" ++ "x") HTTPMethod.PUT
          (some (Json.obj (setKey [("a", Json.num 2)] "_rev" (Json.str "1-abc"))))
          (QState.push ⟨0, []⟩
            ⟨"http://localhost:5984" ++ ("/" ++ "db" ++ "/" ++ "x"),
              HTTPMethod.GET, none⟩)).2) :=
  (put_document_rev_policy
      (twoStep (TransportResult.success 200 (Json.obj exStoredDoc))
        (TransportResult.success 201 exOkBody))
      3 "http://localhost:5984" "db" "x" [("a", Json.num 2)] ⟨0, []⟩ (by omega)).2.1
    200 exStoredDoc (Json.str "1-abc") rfl (by omega) (by omega) rfl

/-- C10: `put_document` with `overwrite = true` and `strict = false`
mutates the caller-supplied mapping itself: when the revision fetch
succeeds, `_rev` is written into the caller's mapping, the PUT payload is
exactly that mutated mapping, and after the call the caller's document
contains the fetched revision token. -/
theorem put_document_mutates_caller (t : Transport) (mr : Nat)
    (base db docId : String) (document : Obj) (st : QState)
    (code pcode : Nat) (inDoc : Obj) (rev putBody : Json)
    (hmr : 0 < mr)
    (hres : t st.calls ⟨base ++ ("/" ++ db ++ "/" ++ docId), HTTPMethod.GET, none⟩ =
      TransportResult.success code (Json.obj inDoc))
    (h1 : 200 ≤ code) (h2 : code < 300)
    (hrev : objLookup inDoc "_rev" = some rev)
    (hput : t (st.calls + 1) ⟨base ++ ("/" ++ db ++ "/" ++ docId), HTTPMethod.PUT,
        some (Json.obj (setKey document "_rev" rev))⟩ =
      TransportResult.success pcode putBody)
    (hp1 : 200 ≤ pcode) (hp2 : pcode < 300) :
    put_document t mr base db docId document true false st =
      (Except.ok putBody, setKey document "_rev" rev,
        ⟨st.calls + 2,
          st.trace ++ [⟨base ++ ("/" ++ db ++ "/" ++ docId), HTTPMethod.GET, none⟩,
            ⟨base ++ ("/" ++ db ++ "/" ++ docId), HTTPMethod.PUT,
              some (Json.obj (setKey document "_rev" rev))⟩]⟩)
    ∧ objLookup (setKey document "_rev" rev) "_rev" = some rev := by
  constructor
  · have hput' : t (QState.push st ⟨base ++ ("/" ++ db ++ "/" ++ docId),
          HTTPMethod.GET, none⟩).calls
        ⟨base ++ ("/" ++ db ++ "/" ++ docId), HTTPMethod.PUT,
          some (Json.obj (setKey document "_rev" rev))⟩ =
        TransportResult.success pcode putBody := hput
    have e2 := couch_query_ok t mr base ("/" ++ db ++ "/" ++ docId) HTTPMethod.PUT
        (some (Json.obj (setKey document "_rev" rev)))
        (QState.push st ⟨base ++ ("/" ++ db ++ "/" ++ docId), HTTPMethod.GET, none⟩)
        pcode putBody hmr hput' hp1 hp2
    simp only [put_document, Bool.and_self, Bool.not_false, if_true]
    rw [couch_query_ok t mr base ("/" ++ db ++ "/" ++ docId) HTTPMethod.GET none st
        code (Json.obj inDoc) hmr hres h1 h2]
    simp only [jsonGet, hrev]
    rw [e2]
    simp [QState.push, Prod.ext_iff, QState.mk.injEq]
  · exact objLookup_setKey_self document "_rev" rev

theorem put_document_mutates_caller_witness :
    (put_document
        (twoStep (TransportResult.success 200 (Json.obj exStoredDoc))
          (TransportResult.success 201 exOkBody))
        3 "http://localhost:5984" "db" "x" [("a", Json.num 2)] true false ⟨0, []⟩ =
      (Except.ok exOkBody,
        setKey [("a", Json.num 2)] "_rev" (Json.str "1-abc"),
        ⟨0 + 2,
          [] ++ [⟨"http://localhost:5984" ++ ("/" ++ "db" ++ "/" ++ "x"),
              HTTPMethod.GET, none⟩,
            ⟨"http://localhost:5984" ++ ("/" ++ "db" ++ "/" ++ "x"), HTTPMethod.PUT,
              some (Json.obj (setKey [("a", Json.num 2)] "_rev" (Json.str "1-abc")))⟩]⟩))
    ∧ objLookup (setKey [("a", Json.num 2)] "_rev" (Json.str "1-abc")) "_rev" =
        some (Json.str "1-abc") :=
  put_document_mutates_caller
    (twoStep (TransportResult.success 200 (Json.obj exStoredDoc))
      (TransportResult.success 201 exOkBody))
    3 "http://localhost:5984" "db" "x" [("a", Json.num 2)] ⟨0, []⟩
    200 201 exStoredDoc (Json.str "1-abc") exOkBody
    (by omega) rfl (by omega) (by omega) rfl rfl (by omega) (by omega)

/-- C4: `patch_document` fetches the current document — defaulting to the
empty mapping when the fetch is rejected with 404 and `strict` is false,
propagating the 404 when `strict` is true, and propagating every non-404
rejection regardless of `strict` — then shallow-merges `document_diff`
over it (diff keys win) and PUTs the merged mapping as the payload. -/
theorem patch_document_merge_policy (t : Transport) (mr : Nat)
    (base db docId : String) (document_diff : Obj) (st : QState) (hmr : 0 < mr) :
    (∀ (strict : Bool) code doc,
        t st.calls ⟨base ++ ("/" ++ db ++ "/" ++ docId), HTTPMethod.GET, none⟩ =
          TransportResult.success code (Json.obj doc) → 200 ≤ code → code < 300 →
        patch_document t mr base db docId document_diff strict st =
          couch_query t mr base ("/" ++ db ++ "/" ++ docId) HTTPMethod.PUT
            (some (Json.obj (dictMerge doc document_diff)))
            (st.push ⟨base ++ ("/" ++ db ++ "/" ++ docId), HTTPMethod.GET, none⟩))
    ∧
    (∀ body, t st.calls ⟨base ++ ("/" ++ db ++ "/" ++ docId), HTTPMethod.GET, none⟩ =
          TransportResult.success 404 body →
        patch_document t mr base db docId document_diff false st =
          couch_query t mr base ("/" ++ db ++ "/" ++ docId) HTTPMethod.PUT
            (some (Json.obj (dictMerge [] document_diff)))
            (st.push ⟨base ++ ("/" ++ db ++ "/" ++ docId), HTTPMethod.GET, none⟩))
    ∧
    (∀ body, t st.calls ⟨base ++ ("/" ++ db ++ "/" ++ docId), HTTPMethod.GET, none⟩ =
          TransportResult.success 404 body →
        patch_document t mr base db docId document_diff true st =
          (Except.error (QueryError.couchHTTP body 404),
            st.push ⟨base ++ ("/" ++ db ++ "/" ++ docId), HTTPMethod.GET, none⟩))
    ∧
    (∀ (strict : Bool) code body,
        t st.calls ⟨base ++ ("/" ++ db ++ "/" ++ docId), HTTPMethod.GET, none⟩ =
          TransportResult.success code body → ¬(200 ≤ code ∧ code < 300) → ¬code = 404 →
        patch_document t mr base db docId document_diff strict st =
          (Except.error (QueryError.couchHTTP body code),
            st.push ⟨base ++ ("/" ++ db ++ "/" ++ docId), HTTPMethod.GET, none⟩)) := by
  refine ⟨?_, ?_, ?_, ?_⟩
  · intro strict code doc hres h1 h2
    simp only [patch_document]
    rw [couch_query_ok t mr base ("/" ++ db ++ "/" ++ docId) HTTPMethod.GET none st
        code (Json.obj doc) hmr hres h1 h2]
  · intro body hres
    simp only [patch_document]
    rw [couch_query_reject t mr base ("/" ++ db ++ "/" ++ docId) HTTPMethod.GET none st
        404 body hmr hres (by omega)]
    simp
  · intro body hres
    simp only [patch_document]
    rw [couch_query_reject t mr base ("/" ++ db ++ "/" ++ docId) HTTPMethod.GET none st
        404 body hmr hres (by omega)]
    simp
  · intro strict code body hres hcode h404
    simp only [patch_document]
    rw [couch_query_reject t mr base ("/" ++ db ++ "/" ++ docId) HTTPMethod.GET none st
        code body hmr hres hcode]
    simp [h404]

theorem patch_document_merge_policy_witness :
    patch_document
        (twoStep (TransportResult.success 200 (Json.obj exStoredDoc))
          (TransportResult.success 201 exOkBody))
        3 "http://localhost:5984" "db" "x"
        [("b", Json.num 3), ("c", Json.num 4)] false ⟨0, []⟩ =
      (Except.ok exOkBody,
        ⟨2, [⟨"http://localhost:5984" ++ ("/" ++ "db" ++ "/" ++ "x"),
            HTTPMethod.GET, none⟩,
          ⟨"http://localhost:5984" ++ ("/" ++ "db" ++ "/" ++ "x"), HTTPMethod.PUT,
            some (Json.obj
              [("_id", Json.str "x"), ("_rev", Json.str "1-abc"),
               ("a", Json.num 1), ("b", Json.num 3), ("c", Json.num 4)])⟩]⟩) := by
  rw [(patch_document_merge_policy
      (twoStep (TransportResult.success 200 (Json.obj exStoredDoc))
        (TransportResult.success 201 exOkBody))
      3 "http://localhost:5984" "db" "x"
      [("b", Json.num 3), ("c", Json.num 4)] ⟨0, []⟩ (by omega)).1
    false 200 exStoredDoc rfl (by omega) (by omega)]
  rfl

/-- C7: `find` issues a single POST to `/db/_find` whose Mango query has
`skip = page * page_size` and `limit = page_size`; every field named in
the sort that is absent from the selector is present in the sent selector
as the exists-true predicate; and the call returns the response's `docs`
member. -/
theorem find_mango_policy (t : Transport) (mr : Nat) (base db : String)
    (sel : Obj) (fields : Option Json) (s : List Obj) (page pageSize : Int)
    (st : QState) (k : String) (code : Nat) (respBody docs : Json)
    (hmr : 0 < mr) (hk : k ∈ sortKeys s) (hsel : objLookup sel k = none)
    (hres : t st.calls ⟨base ++ ("/" ++ db ++ "/_find"), HTTPMethod.POST,
        some (findMango (augmentSelector sel s) page pageSize (some s) fields)⟩ =
      TransportResult.success code respBody)
    (h1 : 200 ≤ code) (h2 : code < 300)
    (hdocs : jsonGet respBody "docs" = Except.ok docs) :
    find t mr base db sel fields (some s) page pageSize st =
      (Except.ok docs, augmentSelector sel s,
        st.push ⟨base ++ ("/" ++ db ++ "/_find"), HTTPMethod.POST,
          some (findMango (augmentSelector sel s) page pageSize (some s) fields)⟩)
    ∧ jsonGet (findMango (augmentSelector sel s) page pageSize (some s) fields)
        "skip" = Except.ok (Json.num (page * pageSize))
    ∧ jsonGet (findMango (augmentSelector sel s) page pageSize (some s) fields)
        "limit" = Except.ok (Json.num pageSize)
    ∧ jsonGet (findMango (augmentSelector sel s) page pageSize (some s) fields)
        "selector" = Except.ok (Json.obj (augmentSelector sel s))
    ∧ objLookup (augmentSelector sel s) k = some existsTrue := by
  refine ⟨?_, ?_, ?_, ?_, ?_⟩
  · simp only [find]
    rw [couch_query_ok t mr base ("/" ++ db ++ "/_find") HTTPMethod.POST
        (some (findMango (augmentSelector sel s) page pageSize (some s) fields)) st
        code respBody hmr hres h1 h2]
    simp [hdocs]
  · simp [findMango, jsonGet, objLookup]
  · simp [findMango, jsonGet, objLookup]
  · simp [findMango, jsonGet, objLookup]
  · exact augmentSelector_adds sel s k hsel hk

theorem find_mango_policy_witness :
    find (fun _ _ => TransportResult.success 200 (Json.obj [("docs", Json.arr [])]))
        3 "http://localhost:5984" "db" [] none
        (some [[("name", Json.str "asc")]]) 0 20 ⟨0, []⟩ =
      (Except.ok (Json.arr []),
        augmentSelector [] [[("name", Json.str "asc")]],
        QState.push ⟨0, []⟩
          ⟨"http://localhost:5984" ++ ("/" ++ "db" ++ "/_find"), HTTPMethod.POST,
            some (findMango (augmentSelector [] [[("name", Json.str "asc")]])
              0 20 (some [[("name", Json.str "asc")]]) none)⟩)
    ∧ objLookup (augmentSelector [] [[("name", Json.str "asc")]]) "name" =
        some existsTrue :=
  ⟨(find_mango_policy
      (fun _ _ => TransportResult.success 200 (Json.obj [("docs", Json.arr [])]))
      3 "http://localhost:5984" "db" [] none [[("name", Json.str "asc")]] 0 20
      ⟨0, []⟩ "name" 200 (Json.obj [("docs", Json.arr [])]) (Json.arr [])
      (by omega) (by decide) rfl rfl (by omega) (by omega) rfl).1,
    (find_mango_policy
      (fun _ _ => TransportResult.success 200 (Json.obj [("docs", Json.arr [])]))
      3 "http://localhost:5984" "db" [] none [[("name", Json.str "asc")]] 0 20
      ⟨0, []⟩ "name" 200 (Json.obj [("docs", Json.arr [])]) (Json.arr [])
      (by omega) (by decide) rfl rfl (by omega) (by omega) rfl).2.2.2.2⟩

/-- C9: `find` and `find_all` mutate the caller-supplied selector mapping
in place — when a sort is given, each sort field missing from the selector
is inserted into that very mapping as the exists-true predicate (for
`find_all` once the first round trip has succeeded) — and because the
default selector argument is one shared mutable mapping, the augmentation
performed by a defaulted call persists: the defaulted call stores back the
augmented mapping, and a second defaulted call (with a different sort)
still finds and sends the previously inserted key. -/
theorem find_selector_frame (t : Transport) (mr : Nat) (base db db2 : String)
    (sel : Obj) (fields f2 : Option Json) (s s2 : List Obj)
    (page pageSize p2 ps2 : Int) (st : QState) (d : ClientDefaults) (k : String)
    (hmr : 0 < mr) (hk : k ∈ sortKeys s) (hsel : objLookup sel k = none)
    (hd : objLookup d.findSel k = none) :
    ((find t mr base db sel fields (some s) page pageSize st).2.1 =
        augmentSelector sel s
      ∧ objLookup (augmentSelector sel s) k = some existsTrue)
    ∧
    (∀ code allBody limit,
        t st.calls ⟨base ++ ("/" ++ db ++ "/_all_docs"), HTTPMethod.GET, none⟩ =
          TransportResult.success code allBody → 200 ≤ code → code < 300 →
        jsonGet allBody "total_rows" = Except.ok limit →
        (find_all t mr base db sel fields (some s) st).2.1 = augmentSelector sel s)
    ∧
    ((findWithDefault t mr base db none fields (some s) page pageSize st d).2.2.2.findSel
        = augmentSelector d.findSel s
      ∧ objLookup
          (findWithDefault t mr base db none fields (some s) page pageSize st d).2.2.2.findSel
          k = some existsTrue
      ∧ (findWithDefault t mr base db2 none f2 (some s2) p2 ps2
            (findWithDefault t mr base db none fields (some s) page pageSize st d).2.2.1
            (findWithDefault t mr base db none fields (some s) page pageSize st d).2.2.2).2.2.2.findSel
          = augmentSelector (augmentSelector d.findSel s) s2
      ∧ objLookup
          (findWithDefault t mr base db2 none f2 (some s2) p2 ps2
            (findWithDefault t mr base db none fields (some s) page pageSize st d).2.2.1
            (findWithDefault t mr base db none fields (some s) page pageSize st d).2.2.2).2.2.2.findSel
          k = some existsTrue) := by
  have hframe : ∀ (db0 : String) (sel0 : Obj) (f0 : Option Json) (s0 : List Obj)
      (p0 q0 : Int) (st0 : QState),
      (find t mr base db0 sel0 f0 (some s0) p0 q0 st0).2.1 = augmentSelector sel0 s0 := by
    intro db0 sel0 f0 s0 p0 q0 st0
    simp only [find]
    rcases hcq : couch_query t mr base ("/" ++ db0 ++ "/_find") HTTPMethod.POST
        (some (findMango (augmentSelector sel0 s0) p0 q0 (some s0) f0)) st0 with ⟨r, st1⟩
    cases r <;> simp [hcq]
  have hdef : ∀ (db0 : String) (f0 : Option Json) (s0 : List Obj) (p0 q0 : Int)
      (st0 : QState) (d0 : ClientDefaults),
      (findWithDefault t mr base db0 none f0 (some s0) p0 q0 st0 d0).2.2.2.findSel =
        augmentSelector d0.findSel s0 := by
    intro db0 f0 s0 p0 q0 st0 d0
    simp only [findWithDefault]
    rcases hf : find t mr base db0 d0.findSel f0 (some s0) p0 q0 st0 with ⟨r, sel1, st1⟩
    have hs := hframe db0 d0.findSel f0 s0 p0 q0 st0
    rw [hf] at hs
    simp at hs
    simp [hs]
  have hc1 := hdef db fields s page pageSize st d
  have hc2 : objLookup (augmentSelector d.findSel s) k = some existsTrue :=
    augmentSelector_adds d.findSel s k hd hk
  refine ⟨⟨hframe db sel fields s page pageSize st,
      augmentSelector_adds sel s k hsel hk⟩, ?_, hc1, ?_, ?_, ?_⟩
  · intro code allBody limit hall h1 h2 htr
    simp only [find_all]
    rw [couch_query_ok t mr base ("/" ++ db ++ "/_all_docs") HTTPMethod.GET none st
        code allBody hmr hall h1 h2]
    rcases hcq : couch_query t mr base ("/" ++ db ++ "/_find") HTTPMethod.POST
        (some (findAllMango (augmentSelector sel s) limit (some s) fields))
        (st.push ⟨base ++ ("/" ++ db ++ "/_all_docs"), HTTPMethod.GET, none⟩)
      with ⟨r, st2⟩
    cases r <;> simp [htr, hcq]
  · rw [hc1]; exact hc2
  · rw [hdef db2 f2 s2 p2 ps2
        (findWithDefault t mr base db none fields (some s) page pageSize st d).2.2.1
        (findWithDefault t mr base db none fields (some s) page pageSize st d).2.2.2,
      hc1]
  · rw [hdef db2 f2 s2 p2 ps2
        (findWithDefault t mr base db none fields (some s) page pageSize st d).2.2.1
        (findWithDefault t mr base db none fields (some s) page pageSize st d).2.2.2,
      hc1]
    rw [augmentSelector_preserves (augmentSelector d.findSel s) s2 k
        (by rw [hc2]; rfl)]
    exact hc2

theorem find_selector_frame_witness :
    ((findWithDefault (fun _ _ => TransportResult.connectionError) 3
        "http://localhost:5984" "db1" none none
        (some [[("name", Json.str "asc")]]) 0 20 ⟨0, []⟩
        ⟨[], []⟩).2.2.2.findSel
      = augmentSelector [] [[("name", Json.str "asc")]]
    ∧ objLookup
        (findWithDefault (fun _ _ => TransportResult.connectionError) 3
          "http://localhost:5984" "db1" none none
          (some [[("name", Json.str "asc")]]) 0 20 ⟨0, []⟩
          ⟨[], []⟩).2.2.2.findSel
        "name" = some existsTrue
    ∧ (findWithDefault (fun _ _ => TransportResult.connectionError) 3
          "http://localhost:5984" "db2" none none
          (some [[("age", Json.str "desc")]]) 0 20
          (findWithDefault (fun _ _ => TransportResult.connectionError) 3
            "http://localhost:5984" "db1" none none
            (some [[("name", Json.str "asc")]]) 0 20 ⟨0, []⟩ ⟨[], []⟩).2.2.1
          (findWithDefault (fun _ _ => TransportResult.connectionError) 3
            "http://localhost:5984" "db1" none none
            (some [[("name", Json.str "asc")]]) 0 20 ⟨0, []⟩ ⟨[], []⟩).2.2.2).2.2.2.findSel
        = augmentSelector (augmentSelector [] [[("name", Json.str "asc")]])
            [[("age", Json.str "desc")]]
    ∧ objLookup
        (findWithDefault (fun _ _ => TransportResult.connectionError) 3
          "http://localhost:5984" "db2" none none
          (some [[("age", Json.str "desc")]]) 0 20
          (findWithDefault (fun _ _ => TransportResult.connectionError) 3
            "http://localhost:5984" "db1" none none
            (some [[("name", Json.str "asc")]]) 0 20 ⟨0, []⟩ ⟨[], []⟩).2.2.1
          (findWithDefault (fun _ _ => TransportResult.connectionError) 3
            "http://localhost:5984" "db1" none none
            (some [[("name", Json.str "asc")]]) 0 20 ⟨0, []⟩ ⟨[], []⟩).2.2.2).2.2.2.findSel
        "name" = some existsTrue) :=
  (find_selector_frame (fun _ _ => TransportResult.connectionError) 3
      "http://localhost:5984" "db1" "db2" [] none none
      [[("name", Json.str "asc")]] [[("age", Json.str "desc")]]
      0 20 0 20 ⟨0, []⟩ ⟨[], []⟩ "name"
      (by omega) (by decide) rfl rfl).2.2

/-- C8 (counterexample): the constructor removes only one trailing
separator, so for the base URI "http://localhost:5984//" the stored base
address still ends with the separator character, refuting the claim that
it never does for every input string. -/
theorem initBaseUri_counterexample :
    (initBaseUri "http://localhost:5984//").data.getLast? = some '/' := by
  decide

/-- C8 (amended): `__init__` removes at most one trailing separator
(`couch_base_uri[:-1]` when `endswith("/")`), so whenever the given base
URI does not end in two consecutive separators, the stored base address
does not end with the separator character '/'. -/
theorem initBaseUri_no_trailing_sep (uri : String)
    (h : ¬(uri.data.getLast? = some '/' ∧ uri.data.dropLast.getLast? = some '/')) :
    ¬(initBaseUri uri).data.getLast? = some '/' := by
  unfold initBaseUri
  by_cases hl : uri.data.getLast? = some '/'
  · rw [if_pos hl]
    intro hc
    exact h ⟨hl, hc⟩
  · rw [if_neg hl]
    exact hl

theorem initBaseUri_no_trailing_sep_witness :
    ¬(initBaseUri "http://localhost:5984/").data.getLast? = some '/' :=
  initBaseUri_no_trailing_sep "http://localhost:5984/" (by decide)

end Couchbeans
